import Mathlib

/-!
Verification of the send-payment flow of the StellarPay front-end
(`src/components/SendPayment.jsx`, `src/pages/Index.tsx`).

The flow is embedded shallowly: the React component's local state becomes a
`FormState` record, the external collaborators (transaction builder, Freighter
signer, submission client) become an environment record of outcomes, and the
async `handleSendPayment` handler becomes a pure function from an initial
state and an environment to a final state together with the list of network
calls made, the number of balance-refresh notifications, and the list of
states observable at the suspension points of the handler.

JavaScript's `parseFloat` is modelled exactly over finite decimal notation
(optional sign, digits, fraction, optional exponent).  A parsed number is kept
as an exact scaled integer `JsNum` (mantissa and power-of-ten exponent) whose
rational value is `JsNum.val`; the comparisons the source performs on the
parsed number (against `0` and `0.0000001`) are decided by exact integer
arithmetic, which agrees with IEEE-754 doubles on every comparison the source
makes against these constants for the inputs considered here.  The non-finite
literal `Infinity` is outside the model.
-/

/-- Numeric value of a list of decimal digit characters, as JavaScript
accumulates them left to right. -/
def digitsVal (l : List Char) : ℕ :=
  l.foldl (fun a c => a * 10 + (c.toNat - 48)) 0

/-- Model of JavaScript `String.prototype.trim`: drop leading and trailing
whitespace. -/
def jsTrim (s : String) : String :=
  ⟨(((s.data.dropWhile Char.isWhitespace).reverse.dropWhile Char.isWhitespace).reverse)⟩

/-- An exact decimal number: `mant * 10 ^ exp10`. -/
structure JsNum where
  mant : ℤ
  exp10 : ℤ
  deriving Repr, DecidableEq

/-- The exact rational value of a `JsNum`. -/
def JsNum.val (x : JsNum) : ℚ := (x.mant : ℚ) * 10 ^ x.exp10

/-- Exact strict comparison of two `JsNum`s by cross-scaling to a common
power of ten; computes by integer arithmetic alone. -/
def JsNum.blt (a b : JsNum) : Bool :=
  decide (a.mant * 10 ^ (a.exp10 - min a.exp10 b.exp10).toNat
        < b.mant * 10 ^ (b.exp10 - min a.exp10 b.exp10).toNat)

/-- Exact non-strict comparison of two `JsNum`s. -/
def JsNum.ble (a b : JsNum) : Bool :=
  decide (a.mant * 10 ^ (a.exp10 - min a.exp10 b.exp10).toNat
        ≤ b.mant * 10 ^ (b.exp10 - min a.exp10 b.exp10).toNat)

/-- The literal `0`. -/
def JsNum.zero : JsNum := ⟨0, 0⟩

/-- The literal `0.0000001` compared against at SendPayment.jsx line 77. -/
def JsNum.stroop : JsNum := ⟨1, -7⟩

/-- The minimum transaction amount checked by the source, as a rational:
`0.0000001` XLM (one stroop). -/
def minUnit : ℚ := 1 / 10 ^ 7

/-- Helper for `parseFloat?`: apply an exponent suffix (the part after `e` or
`E`) to an already-parsed base value; an exponent with no digits is not
consumed, leaving the base value. -/
def applyExponent (base : JsNum) (rest : List Char) : JsNum :=
  let (esign, rest1) : ℤ × List Char :=
    match rest with
    | '-' :: r => (-1, r)
    | '+' :: r => (1, r)
    | _ => (1, rest)
  let eDigits := rest1.takeWhile Char.isDigit
  if eDigits.isEmpty then base
  else ⟨base.mant, base.exp10 + esign * (digitsVal eDigits : ℤ)⟩

/-- Model of JavaScript `parseFloat` on finite decimal notation: skip leading
whitespace, read an optional sign, an integer part, an optional fractional
part and an optional exponent, and return the exact value of the longest
valid numeric front of the string; `none` models `NaN` (no digit could be
read). -/
def parseFloat? (s : String) : Option JsNum :=
  let cs := s.data.dropWhile Char.isWhitespace
  let (sign, cs1) : ℤ × List Char :=
    match cs with
    | '-' :: rest => (-1, rest)
    | '+' :: rest => (1, rest)
    | _ => (1, cs)
  let intPart := cs1.takeWhile Char.isDigit
  let cs2 := cs1.dropWhile Char.isDigit
  let (fracPart, cs3) : List Char × List Char :=
    match cs2 with
    | '.' :: rest => (rest.takeWhile Char.isDigit, rest.dropWhile Char.isDigit)
    | _ => ([], cs2)
  if intPart.isEmpty && fracPart.isEmpty then none
  else
    let base : JsNum :=
      ⟨sign * ((digitsVal intPart : ℤ) * 10 ^ fracPart.length + (digitsVal fracPart : ℤ)),
       -(fracPart.length : ℤ)⟩
    match cs3 with
    | 'e' :: rest => some (applyExponent base rest)
    | 'E' :: rest => some (applyExponent base rest)
    | _ => some base

/-- The validation error messages thrown by `validateInputs` in
`SendPayment.jsx`, in source order. -/
def msgDestRequired : String := "Destination address is required"

def msgInvalidAddress : String :=
  "Invalid Stellar address format. Must start with 'G' and be 56 characters."

def msgSelfSend : String := "Cannot send to your own address"

def msgAmountRequired : String := "Amount is required"

def msgNotPositive : String := "Amount must be a positive number"

def msgBelowMin : String := "Amount is below minimum (0.0000001 XLM)"

/-- Embedding of `validateInputs` (SendPayment.jsx lines 51-82).  The source
throws the first applicable error message and otherwise returns `true`; here a
thrown message is `some msg` and success is `none`.  `validKey` stands for the
imported `isValidPublicKey`, and `publicKey` is the connected wallet's key. -/
def validateInputs (publicKey : String) (validKey : String → Bool)
    (destination amount : String) : Option String :=
  if jsTrim destination = "" then some msgDestRequired
  else if !(validKey (jsTrim destination)) then some msgInvalidAddress
  else if jsTrim destination = publicKey then some msgSelfSend
  else if jsTrim amount = "" then some msgAmountRequired
  else
    match parseFloat? amount with
    | none => some msgNotPositive
    | some q =>
      if q.ble JsNum.zero then some msgNotPositive
      else if q.blt JsNum.stroop then some msgBelowMin
      else none

/-- The success payload built at SendPayment.jsx lines 123-126: the
transaction hash and the explorer link. -/
structure SuccessInfo where
  hash : String
  explorerUrl : String
  deriving Repr, DecidableEq

/-- The local React state of the `SendPayment` component: the two controlled
form fields, the loading flag, the error and success banners, and the step
label (a string, as in `useState("input")`; the source only ever assigns
"input", "signing" and "submitting"). -/
structure FormState where
  destination : String
  amount : String
  isLoading : Bool
  error : Option String
  success : Option SuccessInfo
  step : String
  deriving Repr, DecidableEq

/-- One of the three awaited external calls made by `handleSendPayment`:
`buildPaymentTransaction`, Freighter's `signTransaction`, and
`submitTransaction`. -/
inductive NetCall where
  | build
  | sign
  | submit
  deriving Repr, DecidableEq

/-- Outcome of the awaited `buildPaymentTransaction` call: a transaction XDR
string, or a rejected promise carrying an error message. -/
inductive BuildOutcome where
  | ok (xdr : String)
  | err (msg : String)
  deriving Repr, DecidableEq

/-- Outcome of the awaited Freighter `signTransaction` call: a signed XDR, a
falsy result (the user cancelled — SendPayment.jsx line 114 checks
`if (!signedXDR)`), or a rejected promise. -/
inductive SignOutcome where
  | signed (xdr : String)
  | cancelled
  | err (msg : String)
  deriving Repr, DecidableEq

/-- Outcome of the awaited `submitTransaction` call: a result whose `.hash`
field is read on success, or a rejected promise. -/
inductive SubmitOutcome where
  | ok (hash : String)
  | err (msg : String)
  deriving Repr, DecidableEq

/-- The collaborators of one invocation of `handleSendPayment`: the connected
wallet key, the imported `isValidPublicKey` and `getExplorerUrl` functions
(defined in `src/stellar/stellarClient`), the outcome each awaited call would
produce, and whether an `onTransactionComplete` callback was passed
(`Index.tsx` always passes one). -/
structure FlowEnv where
  publicKey : String
  validKey : String → Bool
  explorerUrl : String → String
  build : BuildOutcome
  sign : SignOutcome
  submit : SubmitOutcome
  hasCallback : Bool

/-- Result of one invocation of `handleSendPayment`: the component state when
the handler returns, the awaited external calls in order, how many times
`onTransactionComplete` ran, and the states observable while an await was
pending (one entry per awaited call — the states in which the UI can render
with the flow in progress). -/
structure FlowResult where
  final : FormState
  netCalls : List NetCall
  completeCalls : ℕ
  pending : List FormState
  deriving Repr

/-- The `catch`/`finally` tail of `handleSendPayment` (lines 136-142): set the
error banner to the thrown message (or the fallback text when the message is
empty), clear the loading flag, and return the step to "input". -/
def catchFinally (s : FormState) (msg : String) : FormState :=
  { s with
      error := some (if msg = "" then "Transaction failed. Please try again." else msg),
      isLoading := false,
      step := "input" }

/-- Embedding of `handleSendPayment` (SendPayment.jsx lines 87-143), with the
outcome of each awaited call supplied by `env`.  Mirrors the source order:
clear banners; validate (throws before any await); set loading and step
"signing"; await build; await sign, treating a falsy result as the thrown
cancellation error; set step "submitting"; await submit; on success store the
hash and explorer link, clear both fields and notify the callback; the
`finally` block always clears loading and resets the step to "input". -/
def handleSendPayment (env : FlowEnv) (s0 : FormState) : FlowResult :=
  let s1 : FormState := { s0 with error := none, success := none }
  match validateInputs env.publicKey env.validKey s1.destination s1.amount with
  | some msg =>
      { final := catchFinally s1 msg, netCalls := [], completeCalls := 0, pending := [] }
  | none =>
      let s2 : FormState := { s1 with isLoading := true, step := "signing" }
      match env.build with
      | BuildOutcome.err msg =>
          { final := catchFinally s2 msg, netCalls := [NetCall.build],
            completeCalls := 0, pending := [s2] }
      | BuildOutcome.ok _xdr =>
          match env.sign with
          | SignOutcome.err msg =>
              { final := catchFinally s2 msg,
                netCalls := [NetCall.build, NetCall.sign],
                completeCalls := 0, pending := [s2, s2] }
          | SignOutcome.cancelled =>
              { final := catchFinally s2 "Transaction signing was cancelled",
                netCalls := [NetCall.build, NetCall.sign],
                completeCalls := 0, pending := [s2, s2] }
          | SignOutcome.signed _signedXDR =>
              let s3 : FormState := { s2 with step := "submitting" }
              match env.submit with
              | SubmitOutcome.err msg =>
                  { final := catchFinally s3 msg,
                    netCalls := [NetCall.build, NetCall.sign, NetCall.submit],
                    completeCalls := 0, pending := [s2, s2, s3] }
              | SubmitOutcome.ok hash =>
                  let s4 : FormState :=
                    { s3 with
                        success := some ⟨hash, env.explorerUrl hash⟩,
                        destination := "", amount := "" }
                  { final := { s4 with isLoading := false, step := "input" },
                    netCalls := [NetCall.build, NetCall.sign, NetCall.submit],
                    completeCalls := if env.hasCallback then 1 else 0,
                    pending := [s2, s2, s3] }

/-- The `disabled` expression of the submit button (SendPayment.jsx line 276):
`isLoading || !destination || !amount` — a JavaScript string is falsy exactly
when it is empty. -/
def submitDisabled (s : FormState) : Bool :=
  s.isLoading || s.destination = "" || s.amount = ""

/-- Modelled from the spec: `isValidPublicKey` is defined in
`src/stellar/stellarClient`, which is not among the repository files here —
only its caller is.  Spec section 4.1 (AddressValidator): given a string,
return a boolean; reject empty input, wrong length, wrong prefix character
and malformed checksum encoding; the caller's own error message fixes the
length at 56 and the prefix character at 'G' (SendPayment.jsx line 58).  The
checksum test is spec-opaque, so it is a parameter. -/
def isValidPublicKey (checksumOk : String → Bool) (s : String) : Bool :=
  s.length = 56 && s.data.head? = some 'G' && checksumOk s

/-- A syntactically plausible destination: 56 copies of 'G'. -/
def gdest : String := String.mk (List.replicate 56 'G')

/-- The spec's expressibility notion (section 3, Amount invariant): a rational
is expressible within `d` fractional decimal digits when scaling it by
`10 ^ d` yields an integer. -/
def fracDigitsLe (q : ℚ) (d : ℕ) : Prop := ∃ n : ℤ, q * 10 ^ d = (n : ℚ)

/-- A concrete environment whose signer cancels (returns a falsy result):
valid inputs, successful build, would-be-successful submission. -/
def envCancel : FlowEnv :=
  ⟨"P", isValidPublicKey (fun _ => true), fun h => h,
   BuildOutcome.ok "xdr", SignOutcome.cancelled, SubmitOutcome.ok "abc123", true⟩

/-- A concrete environment in which every collaborator succeeds and the
submission result carries hash "abc123" (the spec's worked example). -/
def envOk : FlowEnv :=
  ⟨"P", isValidPublicKey (fun _ => true), fun h => h,
   BuildOutcome.ok "xdr", SignOutcome.signed "sxdr", SubmitOutcome.ok "abc123", true⟩

/-- A form with a plausible destination and amount "5". -/
def formStart : FormState := ⟨gdest, "5", false, none, none, "input"⟩

/-- A form whose destination is a single space: non-empty as a raw string,
empty once trimmed. -/
def formWhitespaceDest : FormState := ⟨" ", "5", false, none, none, "input"⟩

/-- A form whose destination is the empty string. -/
def formEmptyDest : FormState := ⟨"", "5", false, none, none, "input"⟩

/-- A form whose amount is the string "0". -/
def formZeroAmount : FormState := ⟨gdest, "0", false, none, none, "input"⟩

theorem JsNum.val_eq_scaled (a : JsNum) (e : ℤ) (h : e ≤ a.exp10) :
    a.val = ((a.mant * 10 ^ (a.exp10 - e).toNat : ℤ) : ℚ) * (10 : ℚ) ^ e := by
  rw [JsNum.val]
  push_cast
  rw [← zpow_natCast (10 : ℚ) (a.exp10 - e).toNat, Int.toNat_of_nonneg (by omega)]
  rw [mul_assoc, ← zpow_add₀ (by norm_num : (10 : ℚ) ≠ 0)]
  ring_nf

/-- `JsNum.blt` decides the strict order of the exact values. -/
theorem JsNum.blt_iff (a b : JsNum) : a.blt b = true ↔ a.val < b.val := by
  rw [JsNum.blt, decide_eq_true_iff]
  rw [JsNum.val_eq_scaled a (min a.exp10 b.exp10) (min_le_left _ _),
      JsNum.val_eq_scaled b (min a.exp10 b.exp10) (min_le_right _ _)]
  rw [mul_lt_mul_right (zpow_pos (by norm_num) _)]
  exact Int.cast_lt.symm

/-- `JsNum.ble` decides the non-strict order of the exact values. -/
theorem JsNum.ble_iff (a b : JsNum) : a.ble b = true ↔ a.val ≤ b.val := by
  rw [JsNum.ble, decide_eq_true_iff]
  rw [JsNum.val_eq_scaled a (min a.exp10 b.exp10) (min_le_left _ _),
      JsNum.val_eq_scaled b (min a.exp10 b.exp10) (min_le_right _ _)]
  rw [mul_le_mul_right (zpow_pos (by norm_num) _)]
  exact Int.cast_le.symm

theorem JsNum.zero_val : JsNum.zero.val = 0 := by simp [JsNum.val, JsNum.zero]

theorem JsNum.stroop_val : JsNum.stroop.val = minUnit := by
  simp [JsNum.val, JsNum.stroop, minUnit]
  norm_num

/-- When validation throws, the handler performs no awaited call and goes
straight to the catch/finally tail. -/
theorem handleSendPayment_validate_some (env : FlowEnv) (s0 : FormState) (msg : String)
    (h : validateInputs env.publicKey env.validKey s0.destination s0.amount = some msg) :
    handleSendPayment env s0 =
      { final := catchFinally { s0 with error := none, success := none } msg,
        netCalls := [], completeCalls := 0, pending := [] } := by
  unfold handleSendPayment
  simp only [h]

/-- Every message `validateInputs` can throw is one of its six literals,
each specific to one violated rule. -/
theorem validateInputs_mem (publicKey : String) (validKey : String → Bool)
    (destination amount msg : String)
    (h : validateInputs publicKey validKey destination amount = some msg) :
    msg ∈ [msgDestRequired, msgInvalidAddress, msgSelfSend, msgAmountRequired,
           msgNotPositive, msgBelowMin] := by
  unfold validateInputs at h
  iterate 6 (all_goals try split at h)
  all_goals simp_all

/-- When validation passes, the amount parsed to a value that is strictly
positive and at least the minimum unit. -/
theorem validateInputs_none (publicKey : String) (validKey : String → Bool)
    (destination amount : String)
    (h : validateInputs publicKey validKey destination amount = none) :
    ∃ q, parseFloat? amount = some q ∧ 0 < q.val ∧ minUnit ≤ q.val := by
  unfold validateInputs at h
  iterate 6 (all_goals try split at h)
  all_goals simp_all
  rename_i hd x q hvk hpk ha hpf hble
  constructor
  · by_contra hc
    push_neg at hc
    rw [← JsNum.zero_val] at hc
    rw [(JsNum.ble_iff q JsNum.zero).2 hc] at hble
    simp at hble
  · by_contra hc
    push_neg at hc
    rw [← JsNum.stroop_val] at hc
    rw [(JsNum.blt_iff q JsNum.stroop).2 hc] at h
    simp at h

/-- Build failure path of the handler. -/
theorem handleSendPayment_build_err (env : FlowEnv) (s0 : FormState) (msg : String)
    (hv : validateInputs env.publicKey env.validKey s0.destination s0.amount = none)
    (hb : env.build = BuildOutcome.err msg) :
    handleSendPayment env s0 =
      { final := catchFinally
          { s0 with error := none, success := none, isLoading := true, step := "signing" } msg,
        netCalls := [NetCall.build], completeCalls := 0,
        pending := [{ s0 with error := none, success := none, isLoading := true, step := "signing" }] } := by
  unfold handleSendPayment
  simp only [hv, hb]

/-- Signature-cancelled path of the handler: the source throws the literal
cancellation message, caught by the same catch as any error. -/
theorem handleSendPayment_sign_cancelled (env : FlowEnv) (s0 : FormState) (xdr : String)
    (hv : validateInputs env.publicKey env.validKey s0.destination s0.amount = none)
    (hb : env.build = BuildOutcome.ok xdr)
    (hs : env.sign = SignOutcome.cancelled) :
    handleSendPayment env s0 =
      { final := catchFinally
          { s0 with error := none, success := none, isLoading := true, step := "signing" }
          "Transaction signing was cancelled",
        netCalls := [NetCall.build, NetCall.sign], completeCalls := 0,
        pending :=
          [{ s0 with error := none, success := none, isLoading := true, step := "signing" },
           { s0 with error := none, success := none, isLoading := true, step := "signing" }] } := by
  unfold handleSendPayment
  simp only [hv, hb, hs]

/-- Signer-rejection path of the handler. -/
theorem handleSendPayment_sign_err (env : FlowEnv) (s0 : FormState) (xdr msg : String)
    (hv : validateInputs env.publicKey env.validKey s0.destination s0.amount = none)
    (hb : env.build = BuildOutcome.ok xdr)
    (hs : env.sign = SignOutcome.err msg) :
    handleSendPayment env s0 =
      { final := catchFinally
          { s0 with error := none, success := none, isLoading := true, step := "signing" } msg,
        netCalls := [NetCall.build, NetCall.sign], completeCalls := 0,
        pending :=
          [{ s0 with error := none, success := none, isLoading := true, step := "signing" },
           { s0 with error := none, success := none, isLoading := true, step := "signing" }] } := by
  unfold handleSendPayment
  simp only [hv, hb, hs]

/-- Submission failure path of the handler. -/
theorem handleSendPayment_submit_err (env : FlowEnv) (s0 : FormState) (xdr sxdr msg : String)
    (hv : validateInputs env.publicKey env.validKey s0.destination s0.amount = none)
    (hb : env.build = BuildOutcome.ok xdr)
    (hs : env.sign = SignOutcome.signed sxdr)
    (hsub : env.submit = SubmitOutcome.err msg) :
    handleSendPayment env s0 =
      { final := catchFinally
          { s0 with error := none, success := none, isLoading := true, step := "submitting" } msg,
        netCalls := [NetCall.build, NetCall.sign, NetCall.submit], completeCalls := 0,
        pending :=
          [{ s0 with error := none, success := none, isLoading := true, step := "signing" },
           { s0 with error := none, success := none, isLoading := true, step := "signing" },
           { s0 with error := none, success := none, isLoading := true, step := "submitting" }] } := by
  unfold handleSendPayment
  simp only [hv, hb, hs, hsub]

/-- Successful path of the handler. -/
theorem handleSendPayment_success (env : FlowEnv) (s0 : FormState) (xdr sxdr hash : String)
    (hv : validateInputs env.publicKey env.validKey s0.destination s0.amount = none)
    (hb : env.build = BuildOutcome.ok xdr)
    (hs : env.sign = SignOutcome.signed sxdr)
    (hsub : env.submit = SubmitOutcome.ok hash) :
    handleSendPayment env s0 =
      { final :=
          { destination := "", amount := "", isLoading := false, error := none,
            success := some ⟨hash, env.explorerUrl hash⟩, step := "input" },
        netCalls := [NetCall.build, NetCall.sign, NetCall.submit],
        completeCalls := if env.hasCallback then 1 else 0,
        pending :=
          [{ s0 with error := none, success := none, isLoading := true, step := "signing" },
           { s0 with error := none, success := none, isLoading := true, step := "signing" },
           { s0 with error := none, success := none, isLoading := true, step := "submitting" }] } := by
  unfold handleSendPayment
  simp only [hv, hb, hs, hsub]

/-- Value of a mantissa with a negative power-of-ten exponent, as a plain
fraction. -/
theorem JsNum.val_neg_exp (m : ℤ) (n : ℕ) :
    (JsNum.mk m (-(n : ℤ))).val = (m : ℚ) / 10 ^ n := by
  simp [JsNum.val, zpow_neg, zpow_natCast]
  ring

/-- C1 counterexample: with valid inputs, a successful build and a signer
that returns no signature, the flow does NOT end quietly — the code persists
the error "Transaction signing was cancelled", which the component renders as
the error banner ("Transaction Failed"); there is no AbortedByUser state. -/
theorem c1_counterexample :
    (handleSendPayment envCancel formStart).final.error =
      some "Transaction signing was cancelled" ∧
    (handleSendPayment envCancel formStart).final.step = "input" := by decide

/-- C1 (amended): for every flow invocation in which validation and envelope
construction succeed but the external signer returns no signature, the flow
ends back at step "input" with the error banner set to "Transaction signing
was cancelled" and no success banner, retaining the entered fields; the code
treats cancellation as an error, not as a quiet aborted-by-user outcome. -/
theorem c1_cancellation_sets_error_banner (env : FlowEnv) (s0 : FormState) (xdr : String)
    (hv : validateInputs env.publicKey env.validKey s0.destination s0.amount = none)
    (hb : env.build = BuildOutcome.ok xdr)
    (hs : env.sign = SignOutcome.cancelled) :
    (handleSendPayment env s0).final.error = some "Transaction signing was cancelled" ∧
    (handleSendPayment env s0).final.success = none ∧
    (handleSendPayment env s0).final.step = "input" ∧
    (handleSendPayment env s0).final.destination = s0.destination ∧
    (handleSendPayment env s0).final.amount = s0.amount := by
  rw [handleSendPayment_sign_cancelled env s0 xdr hv hb hs]
  simp [catchFinally]

/-- C1 witness: the amended theorem applied to the concrete cancelling
environment. -/
theorem c1_witness :
    (handleSendPayment envCancel formStart).final.success = none :=
  (c1_cancellation_sets_error_banner envCancel formStart "xdr" (by decide) rfl rfl).2.1

/-- C2 counterexample: on a fully successful invocation the states the flow
passes through carry only the step labels "signing" and "submitting" — the
envelope-building network call happens while the step is already "signing",
and no distinct "building" (or "validating") state is ever entered. -/
theorem c2_counterexample :
    (handleSendPayment envOk formStart).pending.map FormState.step =
      ["signing", "signing", "submitting"] ∧
    NetCall.build ∈ (handleSendPayment envOk formStart).netCalls ∧
    "building" ∉ (handleSendPayment envOk formStart).pending.map FormState.step ∧
    "validating" ∉ (handleSendPayment envOk formStart).pending.map FormState.step := by
  decide

/-- C2 (amended): every flow invocation passes through step labels drawn only
from "signing" followed by "submitting" (no distinct Validating or Building
state exists; building happens under the "signing" label), and after any
terminal outcome — success, failure, or cancellation — the step returns to
"input". -/
theorem c2_amended_step_states (env : FlowEnv) (s0 : FormState) :
    (handleSendPayment env s0).final.step = "input" ∧
    ((handleSendPayment env s0).pending.map FormState.step = [] ∨
     (handleSendPayment env s0).pending.map FormState.step = ["signing"] ∨
     (handleSendPayment env s0).pending.map FormState.step = ["signing", "signing"] ∨
     (handleSendPayment env s0).pending.map FormState.step =
       ["signing", "signing", "submitting"]) := by
  rcases hv : validateInputs env.publicKey env.validKey s0.destination s0.amount with _ | msg
  · rcases hb : env.build with xdr | msg
    · rcases hs : env.sign with sxdr | _ | msg
      · rcases hsub : env.submit with hash | msg
        · rw [handleSendPayment_success env s0 xdr sxdr hash hv hb hs hsub]
          simp [catchFinally]
        · rw [handleSendPayment_submit_err env s0 xdr sxdr msg hv hb hs hsub]
          simp [catchFinally]
      · rw [handleSendPayment_sign_cancelled env s0 xdr hv hb hs]
        simp [catchFinally]
      · rw [handleSendPayment_sign_err env s0 xdr msg hv hb hs]
        simp [catchFinally]
    · rw [handleSendPayment_build_err env s0 msg hv hb]
      simp [catchFinally]
  · rw [handleSendPayment_validate_some env s0 msg hv]
    simp [catchFinally]

/-- C3: for every flow invocation whose submission result carries a
transaction hash (and with the balance-refresh callback wired, as Index.tsx
always does), the flow reaches success with that hash, clears both form
fields, and notifies the balance-refresh collaborator exactly once. -/
theorem c3_success_clears_form_and_notifies_once (env : FlowEnv) (s0 : FormState)
    (xdr sxdr hash : String)
    (hv : validateInputs env.publicKey env.validKey s0.destination s0.amount = none)
    (hb : env.build = BuildOutcome.ok xdr)
    (hs : env.sign = SignOutcome.signed sxdr)
    (hsub : env.submit = SubmitOutcome.ok hash)
    (hcb : env.hasCallback = true) :
    (handleSendPayment env s0).final.success = some ⟨hash, env.explorerUrl hash⟩ ∧
    (handleSendPayment env s0).final.destination = "" ∧
    (handleSendPayment env s0).final.amount = "" ∧
    (handleSendPayment env s0).completeCalls = 1 := by
  rw [handleSendPayment_success env s0 xdr sxdr hash hv hb hs hsub]
  simp [hcb]

/-- C3 witness: the theorem applied to the all-success environment with the
spec's example hash "abc123". -/
theorem c3_witness :
    (handleSendPayment envOk formStart).final.success = some ⟨"abc123", "abc123"⟩ ∧
    (handleSendPayment envOk formStart).completeCalls = 1 :=
  ⟨(c3_success_clears_form_and_notifies_once envOk formStart "xdr" "sxdr" "abc123"
      (by decide) rfl rfl rfl rfl).1,
   (c3_success_clears_form_and_notifies_once envOk formStart "xdr" "sxdr" "abc123"
      (by decide) rfl rfl rfl rfl).2.2.2⟩

/-- C4: every flow invocation that ends with an error banner set — validation
error, build failure, signer rejection or cancellation, or submission failure
— leaves the destination and amount fields exactly as the user entered them. -/
theorem c4_failed_flow_retains_fields (env : FlowEnv) (s0 : FormState) (m : String)
    (h : (handleSendPayment env s0).final.error = some m) :
    (handleSendPayment env s0).final.destination = s0.destination ∧
    (handleSendPayment env s0).final.amount = s0.amount := by
  rcases hv : validateInputs env.publicKey env.validKey s0.destination s0.amount with _ | msg
  · rcases hb : env.build with xdr | msg
    · rcases hs : env.sign with sxdr | _ | msg
      · rcases hsub : env.submit with hash | msg
        · rw [handleSendPayment_success env s0 xdr sxdr hash hv hb hs hsub] at h
          simp at h
        · rw [handleSendPayment_submit_err env s0 xdr sxdr msg hv hb hs hsub]
          simp [catchFinally]
      · rw [handleSendPayment_sign_cancelled env s0 xdr hv hb hs]
        simp [catchFinally]
      · rw [handleSendPayment_sign_err env s0 xdr msg hv hb hs]
        simp [catchFinally]
    · rw [handleSendPayment_build_err env s0 msg hv hb]
      simp [catchFinally]
  · rw [handleSendPayment_validate_some env s0 msg hv]
    simp [catchFinally]

/-- C4 witness: a cancelled flow retains the entered fields. -/
theorem c4_witness :
    (handleSendPayment envCancel formStart).final.destination = formStart.destination ∧
    (handleSendPayment envCancel formStart).final.amount = formStart.amount :=
  c4_failed_flow_retains_fields envCancel formStart
    "Transaction signing was cancelled" (by decide)

/-- C5: for every input on which `validateInputs` throws, the flow makes no
awaited external call at all (no build, sign, or submit), ends with the error
banner showing exactly the thrown message, and that message is one of six
pairwise-distinct texts, each specific to one violated rule. -/
theorem c5_validation_failure_is_local_and_specific (env : FlowEnv) (s0 : FormState)
    (msg : String)
    (h : validateInputs env.publicKey env.validKey s0.destination s0.amount = some msg) :
    (handleSendPayment env s0).netCalls = [] ∧
    (handleSendPayment env s0).final.error = some msg ∧
    (handleSendPayment env s0).final.success = none ∧
    msg ∈ [msgDestRequired, msgInvalidAddress, msgSelfSend, msgAmountRequired,
           msgNotPositive, msgBelowMin] ∧
    [msgDestRequired, msgInvalidAddress, msgSelfSend, msgAmountRequired,
     msgNotPositive, msgBelowMin].Pairwise (· ≠ ·) := by
  have hmem := validateInputs_mem _ _ _ _ _ h
  have hne : msg ≠ "" := by
    simp only [List.mem_cons, List.not_mem_nil, or_false] at hmem
    rcases hmem with h1 | h1 | h1 | h1 | h1 | h1 <;> (subst h1; decide)
  rw [handleSendPayment_validate_some env s0 msg h]
  refine ⟨rfl, ?_, by simp [catchFinally], hmem, by decide⟩
  simp [catchFinally, hne]

/-- C5 witness: an empty destination yields its specific message and no
external call. -/
theorem c5_witness :
    (handleSendPayment envOk formEmptyDest).netCalls = [] ∧
    (handleSendPayment envOk formEmptyDest).final.error = some msgDestRequired :=
  ⟨(c5_validation_failure_is_local_and_specific envOk formEmptyDest msgDestRequired
      (by decide)).1,
   (c5_validation_failure_is_local_and_specific envOk formEmptyDest msgDestRequired
      (by decide)).2.1⟩

/-- C6: for the amount string "0", for every amount string parsing to a
negative value, and for "0.00000005" (below the minimum unit), validation
throws, so the flow ends with an error banner and makes no external call. -/
theorem c6_nonpositive_and_subminimum_amounts_fail (env : FlowEnv) (s0 : FormState)
    (h : s0.amount = "0" ∨ (∃ q, parseFloat? s0.amount = some q ∧ q.val < 0) ∨
         s0.amount = "0.00000005") :
    validateInputs env.publicKey env.validKey s0.destination s0.amount ≠ none ∧
    (handleSendPayment env s0).final.error.isSome = true ∧
    (handleSendPayment env s0).netCalls = [] := by
  have hvn : validateInputs env.publicKey env.validKey s0.destination s0.amount ≠ none := by
    intro hv
    obtain ⟨q, hpf, hpos, hmin⟩ := validateInputs_none _ _ _ _ hv
    rcases h with h1 | ⟨q2, hq2, hneg⟩ | h1
    · rw [h1, show parseFloat? "0" = some ⟨0, -(0 : ℤ)⟩ from by decide] at hpf
      obtain rfl := (Option.some_inj.1 hpf).symm
      rw [show (-(0:ℤ)) = -((0:ℕ):ℤ) from rfl, JsNum.val_neg_exp] at hpos
      norm_num at hpos
    · rw [hq2] at hpf
      obtain rfl := (Option.some_inj.1 hpf).symm
      linarith
    · rw [h1, show parseFloat? "0.00000005" = some ⟨5, -(8 : ℤ)⟩ from by decide] at hpf
      obtain rfl := (Option.some_inj.1 hpf).symm
      rw [show (-(8:ℤ)) = -((8:ℕ):ℤ) from rfl, JsNum.val_neg_exp] at hmin
      rw [minUnit] at hmin
      norm_num at hmin
  obtain ⟨msg, hmsg⟩ := Option.ne_none_iff_exists.1 hvn
  refine ⟨hvn, ?_, ?_⟩
  · rw [handleSendPayment_validate_some env s0 msg hmsg.symm]
    simp [catchFinally]
  · rw [handleSendPayment_validate_some env s0 msg hmsg.symm]

/-- C6 witness: amount "0" is rejected with no external call. -/
theorem c6_witness :
    validateInputs envOk.publicKey envOk.validKey
      formZeroAmount.destination formZeroAmount.amount ≠ none ∧
    (handleSendPayment envOk formZeroAmount).netCalls = [] :=
  ⟨(c6_nonpositive_and_subminimum_amounts_fail envOk formZeroAmount (Or.inl rfl)).1,
   (c6_nonpositive_and_subminimum_amounts_fail envOk formZeroAmount (Or.inl rfl)).2.2⟩

/-- C7 counterexample: the amount "0.12345678" needs eight fractional digits
— more than the asset's seven — yet validation accepts it, because the code
only checks positivity and the minimum: the flow proceeds past validation
with an amount not expressible in the asset's fixed precision. -/
theorem c7_counterexample :
    validateInputs "P" (isValidPublicKey (fun _ => true)) gdest "0.12345678" = none ∧
    parseFloat? "0.12345678" = some ⟨12345678, -8⟩ ∧
    ¬ fracDigitsLe (JsNum.mk 12345678 (-8)).val 7 := by
  refine ⟨by decide, by decide, ?_⟩
  rintro ⟨n, hn⟩
  rw [show ((-8):ℤ) = -((8:ℕ):ℤ) from rfl, JsNum.val_neg_exp] at hn
  have h1 : (12345678 : ℚ) = n * 10 := by
    field_simp at hn
    linarith
  have h2 : (12345678 : ℤ) = n * 10 := by exact_mod_cast h1
  omega

/-- C7 (amended): every amount string accepted by validation parses to a
value that is strictly positive and at least the minimum unit `0.0000001`;
validation enforces nothing else about the amount — in particular it does not
reject amounts requiring more than 7 fractional digits. -/
theorem c7_amended_validation_bounds_only_below (publicKey : String)
    (validKey : String → Bool) (destination amount : String)
    (h : validateInputs publicKey validKey destination amount = none) :
    ∃ q, parseFloat? amount = some q ∧ 0 < q.val ∧ minUnit ≤ q.val :=
  validateInputs_none publicKey validKey destination amount h

/-- C7 witness: the amended theorem at the accepted amount "5". -/
theorem c7_witness :
    ∃ q, parseFloat? "5" = some q ∧ 0 < q.val ∧ minUnit ≤ q.val :=
  c7_amended_validation_bounds_only_below "P" (isValidPublicKey (fun _ => true))
    gdest "5" (by decide)

/-- C8: every state observable while the flow has a call in flight (the only
states whose step label differs from "input") has the loading flag set, so
the submit control's disabled predicate holds and no second submission can be
started from the same form before the invocation terminates. -/
theorem c8_pending_states_disable_submit (env : FlowEnv) (s0 : FormState) (s : FormState)
    (hmem : s ∈ (handleSendPayment env s0).pending) :
    s.step ≠ "input" ∧ submitDisabled s = true := by
  rcases hv : validateInputs env.publicKey env.validKey s0.destination s0.amount with _ | msg
  · rcases hb : env.build with xdr | msg
    · rcases hs : env.sign with sxdr | _ | msg
      · rcases hsub : env.submit with hash | msg
        · rw [handleSendPayment_success env s0 xdr sxdr hash hv hb hs hsub] at hmem
          simp at hmem
          rcases hmem with h1 | h1 <;> (subst h1; exact ⟨by simp, by simp [submitDisabled]⟩)
        · rw [handleSendPayment_submit_err env s0 xdr sxdr msg hv hb hs hsub] at hmem
          simp at hmem
          rcases hmem with h1 | h1 <;> (subst h1; exact ⟨by simp, by simp [submitDisabled]⟩)
      · rw [handleSendPayment_sign_cancelled env s0 xdr hv hb hs] at hmem
        simp at hmem
        subst hmem
        exact ⟨by simp, by simp [submitDisabled]⟩
      · rw [handleSendPayment_sign_err env s0 xdr msg hv hb hs] at hmem
        simp at hmem
        subst hmem
        exact ⟨by simp, by simp [submitDisabled]⟩
    · rw [handleSendPayment_build_err env s0 msg hv hb] at hmem
      simp at hmem
      subst hmem
      exact ⟨by simp, by simp [submitDisabled]⟩
  · rw [handleSendPayment_validate_some env s0 msg hv] at hmem
    simp at hmem

/-- C8 witness: the in-flight "signing" state of the all-success run has the
submit control disabled. -/
theorem c8_witness :
    (⟨gdest, "5", true, none, none, "signing"⟩ : FormState).step ≠ "input" ∧
    submitDisabled ⟨gdest, "5", true, none, none, "signing"⟩ = true :=
  c8_pending_states_disable_submit envOk formStart
    ⟨gdest, "5", true, none, none, "signing"⟩ (by decide)

/-- C9 (modelled from the spec, as `isValidPublicKey` lives in the absent
`src/stellar/stellarClient`): the validator is a total boolean function — no
side effects or error paths, being a plain function — and it returns false
for the empty string, any string whose length is not 56, any string not
starting with 'G', and any string whose checksum test fails. -/
theorem c9_invalid_strings_rejected (checksumOk : String → Bool) (s : String)
    (h : s = "" ∨ s.length ≠ 56 ∨ s.data.head? ≠ some 'G' ∨ checksumOk s = false) :
    isValidPublicKey checksumOk s = false := by
  rcases h with h | h | h | h
  · subst h
    rfl
  · simp [isValidPublicKey, h]
  · simp [isValidPublicKey, h]
  · simp [isValidPublicKey, h]

/-- C9 witness: the empty string is rejected. -/
theorem c9_witness : isValidPublicKey (fun _ => true) "" = false :=
  c9_invalid_strings_rejected (fun _ => true) "" (Or.inl rfl)

/-- C10 counterexample: a destination consisting of one space leaves the
submit control enabled (the disabled predicate only tests raw emptiness),
yet submitting it reaches the "Destination address is required" branch,
because validation trims the value first — so that branch IS reachable
through the submit control. -/
theorem c10_counterexample :
    submitDisabled formWhitespaceDest = false ∧
    (handleSendPayment envOk formWhitespaceDest).final.error = some msgDestRequired := by
  decide

/-- C10 (amended): whenever the destination or the amount field is the empty
string the submit control is disabled; but the required-field validation
branches are still reachable through the control, since whitespace-only
values enable it while trimming empties them (see the counterexample). -/
theorem c10_amended_empty_fields_disable (s : FormState)
    (h : s.destination = "" ∨ s.amount = "") :
    submitDisabled s = true := by
  rcases h with h | h <;> simp [submitDisabled, h]

/-- C10 witness: an empty destination disables the control. -/
theorem c10_witness : submitDisabled formEmptyDest = true :=
  c10_amended_empty_fields_disable formEmptyDest (Or.inl rfl)
